import Mathlib

/-!
Verification development for the GeoSpyTia GIS application (`main.py`).

The embedding covers the parts of the program the claims talk about:

* the global layer registry `layers` (a Python `dict`, i.e. an
  insertion-ordered association list in which assigning to an existing
  key updates the entry in place),
* the table-of-contents list widget built by `updateTOC` (one row per
  layer, each row a `QListWidgetItem` with empty text carrying a custom
  widget whose checkbox holds the layer name),
* the compositor `updateDisplay`, `removeLayer`, the checkbox toggle,
* the geoprocessing / band-algebra operations `calculateBuffer`,
  `calculateClip`, `calculateIntersect`, `calculateRasterIndex`
  (with the `calculateNDVI` / `calculateNDBI` / `calculateLST` lambdas)
  and `calculateOverlay`, and the loaders `loadRaster`, `loadVector`,
  `loadDataFromDatabase`.

External collaborators (rasterio, geopandas/shapely, psycopg2, the file
system) are modelled as an explicit oracle of read/write/compute
functions; the numpy float32 arithmetic of the band algebra is modelled
exactly as IEEE-754 binary floating point over exact rationals.
-/

/-! ### IEEE-754 binary floating point over ℚ

`Fl` is the value domain of a binary floating-point format: NaN,
signed infinities, signed zeros and nonzero finite values (every finite
float is an exact rational).  `roundFl prec emin emax` is round-to-
nearest, ties-to-even into the format with `prec` significand bits,
minimum normal exponent `emin` and maximum exponent `emax`;
`r32 = roundFl 24 (-126) 127` is IEEE binary32 (numpy float32) and
`r64 = roundFl 53 (-1022) 1023` is binary64 (a Python float). -/

/-- `2 ^ e` as a rational, for an integer exponent. -/
def pow2 (e : ℤ) : ℚ :=
  if 0 ≤ e then ((2 ^ e.toNat : ℕ) : ℚ) else 1 / ((2 ^ (-e).toNat : ℕ) : ℚ)

/-- `10 ^ e` as a rational, for an integer exponent. -/
def powTen (e : ℤ) : ℚ :=
  if 0 ≤ e then ((10 ^ e.toNat : ℕ) : ℚ) else 1 / ((10 ^ (-e).toNat : ℕ) : ℚ)

/-- Round a rational to the nearest integer, ties to the even integer. -/
def roundHalfEven (x : ℚ) : ℤ :=
  let f := ⌊x⌋
  if x - (f : ℚ) < 1/2 then f
  else if 1/2 < x - (f : ℚ) then f + 1
  else if f % 2 = 0 then f else f + 1

/-- `⌊log₂ n⌋` by structural recursion on a fuel argument
(`fuel ≥ n` suffices, since the argument halves each step). -/
def log2Fuel : ℕ → ℕ → ℕ
  | 0, _ => 0
  | fuel + 1, n => if 2 ≤ n then log2Fuel fuel (n / 2) + 1 else 0

/-- `⌊log₂ n⌋` for `n ≥ 1` (and `0` for `n = 0`). -/
def nlog2 (n : ℕ) : ℕ := log2Fuel n n

/-- `⌊log₂ x⌋` for a positive rational `x`: for `x = a / b` the bit
lengths of `a` and `b` put `⌊log₂ x⌋` within one of
`nlog2 a - nlog2 b`, and the ladder of comparisons picks the
exponent `e` with `2 ^ e ≤ x < 2 ^ (e + 1)`. -/
def expOf (x : ℚ) : ℤ :=
  let k : ℤ := (nlog2 x.num.natAbs : ℤ) - (nlog2 x.den : ℤ)
  if x < pow2 (k - 1) then k - 2
  else if x < pow2 k then k - 1
  else if x < pow2 (k + 1) then k
  else if x < pow2 (k + 2) then k + 1
  else k + 2

/-- A binary floating-point datum: NaN, ±∞, ±0, or a nonzero finite
value held as its exact rational magnitude with sign. -/
inductive Fl where
  | nan : Fl
  | inf (neg : Bool) : Fl
  | zero (neg : Bool) : Fl
  | num (q : ℚ) : Fl
  deriving DecidableEq, Repr

/-- The rational value of a finite float (`0` for NaN/∞, which the
arithmetic never feeds into this). -/
def Fl.toQ : Fl → ℚ
  | .num q => q
  | _ => 0

/-- IEEE sign bit (`true` = negative). -/
def Fl.sgn : Fl → Bool
  | .nan => false
  | .inf s => s
  | .zero s => s
  | .num q => decide (q < 0)

def Fl.isZero : Fl → Bool
  | .zero _ => true
  | _ => false

def Fl.isFinite : Fl → Bool
  | .zero _ => true
  | .num _ => true
  | _ => false

def Fl.isInfOrNan : Fl → Bool
  | .nan => true
  | .inf _ => true
  | _ => false

/-- Round a rational into the floating-point format with `prec`
significand bits and exponent range `[emin, emax]`: round to nearest,
ties to even, gradual underflow below `2 ^ emin`, overflow to ∞ beyond
the largest finite value `(2 ^ prec - 1) * 2 ^ (emax - prec + 1)`. -/
def roundFl (prec : ℕ) (emin emax : ℤ) (q : ℚ) : Fl :=
  if q = 0 then .zero false
  else
    let s := decide (q < 0)
    let x := |q|
    let e := max (expOf x) emin
    let ulp := e - (prec : ℤ) + 1
    let m := roundHalfEven (x / pow2 ulp)
    if m = 0 then .zero s
    else
      let r := (m : ℚ) * pow2 ulp
      if ((2 ^ prec - 1 : ℕ) : ℚ) * pow2 (emax - (prec : ℤ) + 1) < r then .inf s
      else .num (if s then -r else r)

/-- IEEE binary32 rounding (numpy `float32`). -/
def r32 : ℚ → Fl := roundFl 24 (-126) 127

/-- IEEE binary64 rounding (a Python `float`). -/
def r64 : ℚ → Fl := roundFl 53 (-1022) 1023

/-- IEEE negation (exact: flips the sign bit). -/
def Fl.fneg : Fl → Fl
  | .nan => .nan
  | .inf s => .inf (!s)
  | .zero s => .zero (!s)
  | .num q => .num (-q)

/-- IEEE addition, parametrised by the format's rounding: NaN and ∞
follow the special-value rules, `-0 + -0 = -0`, and finite sums are
the exact rational sum rounded (so an exact zero sum gives `+0`,
the round-to-nearest rule). -/
def faddR (r : ℚ → Fl) : Fl → Fl → Fl
  | .nan, _ => .nan
  | _, .nan => .nan
  | .inf s, .inf t => if s = t then .inf s else .nan
  | .inf s, _ => .inf s
  | _, .inf t => .inf t
  | .zero s, .zero t => .zero (s && t)
  | a, b => r (Fl.toQ a + Fl.toQ b)

/-- IEEE subtraction: addition of the negation. -/
def fsubR (r : ℚ → Fl) (a b : Fl) : Fl := faddR r a b.fneg

/-- IEEE multiplication with the special-value rules
(`∞ * 0 = NaN`, signs xor, finite products rounded exactly). -/
def fmulR (r : ℚ → Fl) : Fl → Fl → Fl
  | .nan, _ => .nan
  | _, .nan => .nan
  | .inf s, .inf t => .inf (s != t)
  | .inf _, .zero _ => .nan
  | .zero _, .inf _ => .nan
  | .inf s, .num q => .inf (s != decide (q < 0))
  | .num q, .inf t => .inf (decide (q < 0) != t)
  | .zero s, .zero t => .zero (s != t)
  | .zero s, .num q => .zero (s != decide (q < 0))
  | .num q, .zero t => .zero (decide (q < 0) != t)
  | .num p, .num q => r (p * q)

/-- IEEE division with the special-value rules (`∞/∞ = NaN`,
`0/0 = NaN`, `x/0 = ±∞` for finite nonzero `x`, signs xor,
finite quotients rounded exactly). -/
def fdivR (r : ℚ → Fl) : Fl → Fl → Fl
  | .nan, _ => .nan
  | _, .nan => .nan
  | .inf _, .inf _ => .nan
  | .inf s, b => .inf (s != b.sgn)
  | a, .inf t => .zero (a.sgn != t)
  | .zero _, .zero _ => .nan
  | .num q, .zero t => .inf (decide (q < 0) != t)
  | .zero s, .num q => .zero (s != decide (q < 0))
  | .num p, .num q => r (p / q)

/-- numpy float32 addition. -/
def add32 : Fl → Fl → Fl := faddR r32

/-- numpy float32 subtraction. -/
def sub32 : Fl → Fl → Fl := fsubR r32

/-- numpy float32 multiplication. -/
def mul32 : Fl → Fl → Fl := fmulR r32

/-- numpy float32 division. -/
def div32 : Fl → Fl → Fl := fdivR r32

/-! ### Python scalar conversions

`float(s)` and `int(s)` on strings, as the dialogs hand text fields to
the geoprocessing functions.  `float` accepts an optional sign, then
`inf`/`infinity`/`nan` (case-insensitively) or a decimal literal with
optional fraction and exponent; the decimal value is rounded to
binary64.  `int` accepts an optional sign and a nonempty digit string.
Surrounding whitespace is allowed by both; both raise `ValueError`
otherwise (modelled as `none`). -/

/-- ASCII whitespace accepted (and stripped) by Python numeric
conversions. -/
def isSpaceChar (c : Char) : Bool :=
  c = ' ' || c = '\t' || c = '\n' || c = '\r'

/-- Strip leading and trailing whitespace from a character list. -/
def trimChars (cs : List Char) : List Char :=
  ((cs.dropWhile isSpaceChar).reverse.dropWhile isSpaceChar).reverse

/-- ASCII lowercasing of one character. -/
def lowerChar (c : Char) : Char :=
  if 'A' ≤ c ∧ c ≤ 'Z' then Char.ofNat (c.toNat + 32) else c

/-- Value of a digit string (caller checks the digits). -/
def digitsVal (cs : List Char) : ℕ :=
  cs.foldl (fun n c => 10 * n + (c.toNat - 48)) 0

/-- A nonempty all-digit string, or `none`. -/
def digitsToNat (cs : List Char) : Option ℕ :=
  if cs ≠ [] ∧ cs.all Char.isDigit then some (digitsVal cs) else none

/-- Python `int(s)` for a trimmed, lowercased character list. -/
def pyIntParse (s : String) : Option ℤ :=
  match trimChars s.toList with
  | '+' :: rest => (digitsToNat rest).map (fun n => (n : ℤ))
  | '-' :: rest => (digitsToNat rest).map (fun n => -(n : ℤ))
  | rest => (digitsToNat rest).map (fun n => (n : ℤ))

/-- Mantissa of a decimal literal: `digits`, `digits.digits`,
`digits.` or `.digits`. -/
def parseMant (cs : List Char) : Option ℚ :=
  match cs.span (fun c => c != '.') with
  | (ip, []) => (digitsToNat ip).map (fun n => (n : ℚ))
  | (ip, _ :: fp) =>
    if ip = [] then (digitsToNat fp).map (fun n => (n : ℚ) / powTen (fp.length : ℤ))
    else if fp = [] then (digitsToNat ip).map (fun n => (n : ℚ))
    else
      match digitsToNat ip, digitsToNat fp with
      | some a, some b => some ((a : ℚ) + (b : ℚ) / powTen (fp.length : ℤ))
      | _, _ => none

/-- Signed decimal exponent. -/
def parseExp (cs : List Char) : Option ℤ :=
  match cs with
  | '+' :: rest => (digitsToNat rest).map (fun n => (n : ℤ))
  | '-' :: rest => (digitsToNat rest).map (fun n => -(n : ℤ))
  | rest => (digitsToNat rest).map (fun n => (n : ℤ))

/-- A decimal literal `mantissa [e exponent]`, as an exact rational. -/
def parseDecimal (cs : List Char) : Option ℚ :=
  match cs.span (fun c => c != 'e') with
  | (mant, []) => parseMant mant
  | (mant, _ :: ex) =>
    match parseMant mant, parseExp ex with
    | some m, some e => some (m * powTen e)
    | _, _ => none

/-- Body of `float(s)` after the sign: the special words or a decimal
literal rounded to binary64 (`float("-0.0")` keeps the zero's sign). -/
def pyFloatBody (neg : Bool) (cs : List Char) : Option Fl :=
  if cs = "inf".toList ∨ cs = "infinity".toList then some (.inf neg)
  else if cs = "nan".toList then some .nan
  else (parseDecimal cs).map (fun q => if q = 0 then Fl.zero neg else r64 (if neg then -q else q))

/-- Python `float(s)`. -/
def pyFloatParse (s : String) : Option Fl :=
  match (trimChars s.toList).map lowerChar with
  | '+' :: rest => pyFloatBody false rest
  | '-' :: rest => pyFloatBody true rest
  | rest => pyFloatBody false rest

/-! ### Grids and numpy broadcasting

A raster band read by `src.read(1).astype(np.float32)` is a 2-D
float32 array, modelled as a list of rows.  Binary array operations
follow numpy's 2-D broadcasting rule: each dimension pair must be
equal or contain a `1`; an incompatible pair raises `ValueError`
(caught by the operations' `except` blocks). -/

abbrev PyErr := String

abbrev Grid := List (List Fl)

/-- Column count of a (rectangular) grid. -/
def gridCols (g : Grid) : ℕ := (g.headD []).length

/-- `(rows, cols)` of a grid. -/
def gridShape (g : Grid) : ℕ × ℕ := (g.length, gridCols g)

/-- numpy's broadcast of one dimension pair. -/
def bcastDim (a b : ℕ) : Option ℕ :=
  if a = b then some a else if a = 1 then some b else if b = 1 then some a else none

/-- Stretch a length-1 axis to length `n` (identity when the length is
already `n`; only reached under those two cases). -/
def bcastList (n : ℕ) (d : α) (l : List α) : List α :=
  if l.length = n then l else List.replicate n (l.headD d)

/-- Elementwise binary operation of two 2-D arrays under numpy
broadcasting; `ValueError` when the shapes are incompatible. -/
def gridZip (f : Fl → Fl → Fl) (g1 g2 : Grid) : Except PyErr Grid :=
  match bcastDim g1.length g2.length, bcastDim (gridCols g1) (gridCols g2) with
  | some rows, some cols =>
    .ok (List.zipWith (fun r1 r2 => List.zipWith f (bcastList cols Fl.nan r1) (bcastList cols Fl.nan r2))
      (bcastList rows [] g1) (bcastList rows [] g2))
  | _, _ => .error "operands could not be broadcast together"

/-- Cell access with out-of-range default (only used in-range). -/
def cell (g : Grid) (i j : ℕ) : Fl := (g.getD i []).getD j Fl.nan

/-- rasterio's check when writing band 1 of a dataset opened with a
profile of height `h` and width `w`. -/
def shapeOk (g : Grid) (h w : ℕ) : Bool :=
  g.length == h && g.all (fun row => row.length == w)

/-! ### The data model: layers, registry, table of contents

`layers` is the global Python dict from layer name to
`{'type': ..., 'data': ...}`: an insertion-ordered association list.
`dictSet` is assignment `layers[k] = v` (updates an existing key in
place, appends a new key at the end), `dictGet?` is lookup, `dictDel`
is `del layers[k]`.

Vector payloads are feature tables; geometries and attribute records
are opaque to this program (they live in geopandas), so they are
carried as uninterpreted codes and transformed only through the
oracle. -/

structure Geom where
  code : ℕ
  deriving DecidableEq, Repr

structure AttrRow where
  code : ℕ
  deriving DecidableEq, Repr

structure Feature where
  geom : Geom
  attrs : AttrRow
  deriving DecidableEq, Repr

inductive LayerData where
  | raster (grid : Grid)
  | vector (features : List Feature)
  deriving DecidableEq, Repr

abbrev Layers := List (String × LayerData)

def dictGet? : Layers → String → Option LayerData
  | [], _ => none
  | (k1, v1) :: rest, k => if k1 = k then some v1 else dictGet? rest k

def dictSet : Layers → String → LayerData → Layers
  | [], k, v => [(k, v)]
  | (k1, v1) :: rest, k, v => if k1 = k then (k, v) :: rest else (k1, v1) :: dictSet rest k v

def dictDel : Layers → String → Layers
  | [], _ => []
  | (k1, v1) :: rest, k => if k1 = k then rest else (k1, v1) :: dictDel rest k

/-- One row of the table-of-contents `QListWidget`: the
`QListWidgetItem` itself (whose text is whatever the item was created
with), and the custom widget's checkbox, which carries the layer name
as its text and the visibility flag as its checked state. -/
structure TocRow where
  itemText : String
  checkName : String
  checked : Bool
  deriving DecidableEq, Repr

/-- The application state the claims are about: the global `layers`
dict and the table-of-contents rows (row `0` at the top of the widget =
first inserted = bottom of the render stack; `updateDisplay` walks the
rows from the last index down). -/
structure AppState where
  layers : Layers
  toc : List TocRow
  deriving DecidableEq, Repr

def emptyState : AppState := { layers := [], toc := [] }

/-- `updateTOC`: clears the list widget and rebuilds one row per
registry entry, in registry order.  Each row is a fresh
`QListWidgetItem()` (so its own text is the empty string) holding a
widget whose checkbox has the layer name as text and is created with
`setChecked(True)`. -/
def updateTOC (s : AppState) : AppState :=
  { layers := s.layers
    toc := s.layers.map (fun p => { itemText := "", checkName := p.1, checked := true }) }

/-- `os.path.basename` (POSIX): the part after the last slash. -/
def basename (path : String) : String :=
  String.mk ((path.toList.reverse.takeWhile (fun c => c != '/')).reverse)

/-! ### Rendering: `updateDisplay`

The loop body reads the row's checkbox, takes the layer name from the
checkbox text, and — when the box is checked and the name is a key of
`layers` — draws that single layer and `break`s.  Walking order is
`range(count - 1, -1, -1)`: last row (most recently inserted layer)
first. -/

inductive DrawCmd where
  | raster (grid : Grid)
  | vector (features : List Feature)
  deriving DecidableEq, Repr

/-- The loop condition `checkbox.isChecked() and layer_name in layers`. -/
def visPred (ls : Layers) (r : TocRow) : Bool :=
  r.checked && (dictGet? ls r.checkName).isSome

/-- What drawing the row issues (`imshow` for a raster payload,
`plot` for a vector payload). -/
def drawCmdOf (ls : Layers) (r : TocRow) : List DrawCmd :=
  match dictGet? ls r.checkName with
  | some (.raster g) => [.raster g]
  | some (.vector fs) => [.vector fs]
  | none => []

/-- The `for item_index in range(...)` loop over an already-reversed
row list: draw the first row satisfying the condition, then `break`. -/
def updateDisplayLoop (ls : Layers) : List TocRow → List DrawCmd
  | [] => []
  | r :: rest => if visPred ls r then drawCmdOf ls r else updateDisplayLoop ls rest

/-- `updateDisplay`: after `ax.clear()`, the draw commands issued on
the axes (empty list = display cleared to empty). -/
def updateDisplay (s : AppState) : List DrawCmd :=
  updateDisplayLoop s.layers s.toc.reverse

/-! ### Registry mutations: loaders, `removeLayer`, checkbox toggle -/

/-- `removeLayer`: takes the selected row out of the list widget, reads
the *item's own* text (not the checkbox text) as the layer name, and
deletes that key from `layers` only if present.  With no selection
(`currentRow == -1`) nothing happens. -/
def removeLayer (s : AppState) (currentRow : ℕ) : AppState :=
  if currentRow < s.toc.length then
    let item := s.toc.getD currentRow { itemText := "", checkName := "", checked := true }
    let toc2 := s.toc.eraseIdx currentRow
    if (dictGet? s.layers item.itemText).isSome then
      { layers := dictDel s.layers item.itemText, toc := toc2 }
    else
      { layers := s.layers, toc := toc2 }
  else s

/-- Replace the element at index `i` (identity out of range). -/
def modifyIdx {α : Type} (f : α → α) : ℕ → List α → List α
  | _, [] => []
  | 0, a :: l => f a :: l
  | n + 1, a :: l => a :: modifyIdx f n l

/-- A click on the checkbox of row `i`: Qt flips the checkbox state,
then the `stateChanged` handler `toggleLayer` runs `updateDisplay`
(which reads the new state); the registry is untouched. -/
def toggleLayer (s : AppState) (i : ℕ) : AppState :=
  { s with toc := modifyIdx (fun r => { r with checked := !r.checked }) i s.toc }

/-! ### External collaborators

rasterio, geopandas/shapely and psycopg2 are outside the core; the
operations consume them through this oracle.  A raster source is the
profile dimensions plus the bands (1-indexed reads); vector reads and
writes, the database import, and the three geometry computations are
uninterpreted functions, each free to fail with a Python exception
(modelled as the exception's message string). -/

structure RasterSrc where
  h : ℕ
  w : ℕ
  bands : List Grid
  deriving DecidableEq, Repr

/-- `src.read(i)` with a 1-based band index; rasterio raises
`IndexError` out of range. -/
def RasterSrc.read (src : RasterSrc) (i : ℤ) : Except PyErr Grid :=
  if 1 ≤ i ∧ i ≤ (src.bands.length : ℤ) then .ok (src.bands.getD (i - 1).toNat [])
  else .error "band index out of range"

structure Oracle where
  openRead : String → Except PyErr RasterSrc
  openWrite : String → Except PyErr Unit
  readVector : String → Except PyErr (List Feature)
  writeVector : String → List Feature → Except PyErr Unit
  readDB : String → Except PyErr (List Feature)
  bufferG : Fl → Geom → Except PyErr Geom
  clipG : List Feature → List Feature → Except PyErr (List Feature)
  overlayG : List Feature → List Feature → Except PyErr (List Feature)

/-- The message boxes the user-facing operations put up. -/
inductive Dialog where
  | info (msg : String) : Dialog
  | warning (msg : String) : Dialog
  | critical (msg : String) : Dialog
  deriving DecidableEq, Repr

/-! ### Loaders -/

/-- `loadRaster`: open the file, read band 1, assign
`layers[os.path.basename(filePath)]` and rebuild the TOC.  It has no
`try` of its own — a read failure propagates to the caller. -/
def loadRaster (o : Oracle) (s : AppState) (filePath : String) : Except PyErr AppState :=
  match o.openRead filePath with
  | .error e => .error e
  | .ok src =>
    match src.read 1 with
    | .error e => .error e
    | .ok data =>
      .ok (updateTOC { s with layers := dictSet s.layers (basename filePath) (.raster data) })

/-- `loadVector`: read the feature collection and register it under the
file's basename. -/
def loadVector (o : Oracle) (s : AppState) (filePath : String) : Except PyErr AppState :=
  match o.readVector filePath with
  | .error e => .error e
  | .ok gdf =>
    .ok (updateTOC { s with layers := dictSet s.layers (basename filePath) (.vector gdf) })

/-- `loadDataFromDatabase`: an empty table name is rejected with a
warning; otherwise `SELECT * FROM <table>` is read through the oracle
and registered under the table name, with failures caught and shown. -/
def loadDataFromDatabase (o : Oracle) (s : AppState) (tableName : String) :
    AppState × List Dialog :=
  if tableName = "" then (s, [.warning "Table name cannot be empty!"])
  else
    match o.readDB tableName with
    | .error e => (s, [.critical ("Failed to import data:\n" ++ e)])
    | .ok gdf =>
      (updateTOC { s with layers := dictSet s.layers tableName (.vector gdf) },
        [.info ("Data imported from table: " ++ tableName)])

/-! ### Vector geoprocessing -/

/-- `gdf['geometry'] = gdf.buffer(distance)`: every feature's geometry
replaced by its buffer, attributes kept; the first engine failure
aborts the whole (vectorised) operation. -/
def bufferFeatures (o : Oracle) (d : Fl) : List Feature → Except PyErr (List Feature)
  | [] => .ok []
  | f :: rest =>
    match o.bufferG d f.geom with
    | .error e => .error e
    | .ok g2 =>
      match bufferFeatures o d rest with
      | .error e => .error e
      | .ok l => .ok ({ geom := g2, attrs := f.attrs } :: l)

/-- `calculateBuffer`: inside one `try`, convert the distance text with
`float(...)`, read the input, buffer all features, write the output,
show the success box, and re-load the written file as a new vector
layer; any exception instead shows the error box and leaves the state
as it was. -/
def calculateBuffer (o : Oracle) (s : AppState) (inputPath outputPath distance : String) :
    AppState × List Dialog :=
  match pyFloatParse distance with
  | none => (s, [.critical "Buffer operation failed: could not convert string to float"])
  | some d =>
    match o.readVector inputPath with
    | .error e => (s, [.critical ("Buffer operation failed: " ++ e)])
    | .ok gdf =>
      match bufferFeatures o d gdf with
      | .error e => (s, [.critical ("Buffer operation failed: " ++ e)])
      | .ok gdf2 =>
        match o.writeVector outputPath gdf2 with
        | .error e => (s, [.critical ("Buffer operation failed: " ++ e)])
        | .ok _ =>
          match loadVector o s outputPath with
          | .error e =>
            (s, [.info "Buffer created successfully!",
              .critical ("Buffer operation failed: " ++ e)])
          | .ok s2 => (s2, [.info "Buffer created successfully!"])

/-- `calculateClip`: read both inputs, `gpd.clip`, write, success box,
re-load as a new vector layer; exceptions caught at the boundary. -/
def calculateClip (o : Oracle) (s : AppState) (inputPath clipPath outputPath : String) :
    AppState × List Dialog :=
  match o.readVector inputPath with
  | .error e => (s, [.critical ("Clip operation failed: " ++ e)])
  | .ok input_gdf =>
    match o.readVector clipPath with
    | .error e => (s, [.critical ("Clip operation failed: " ++ e)])
    | .ok clip_gdf =>
      match o.clipG input_gdf clip_gdf with
      | .error e => (s, [.critical ("Clip operation failed: " ++ e)])
      | .ok clipped_gdf =>
        match o.writeVector outputPath clipped_gdf with
        | .error e => (s, [.critical ("Clip operation failed: " ++ e)])
        | .ok _ =>
          match loadVector o s outputPath with
          | .error e =>
            (s, [.info "Clip operation completed!",
              .critical ("Clip operation failed: " ++ e)])
          | .ok s2 => (s2, [.info "Clip operation completed!"])

/-- `calculateIntersect`: read both inputs,
`gpd.overlay(..., how="intersection")`, write, success box, re-load. -/
def calculateIntersect (o : Oracle) (s : AppState) (inputPath1 inputPath2 outputPath : String) :
    AppState × List Dialog :=
  match o.readVector inputPath1 with
  | .error e => (s, [.critical ("Intersection operation failed: " ++ e)])
  | .ok gdf1 =>
    match o.readVector inputPath2 with
    | .error e => (s, [.critical ("Intersection operation failed: " ++ e)])
    | .ok gdf2 =>
      match o.overlayG gdf1 gdf2 with
      | .error e => (s, [.critical ("Intersection operation failed: " ++ e)])
      | .ok intersected_gdf =>
        match o.writeVector outputPath intersected_gdf with
        | .error e => (s, [.critical ("Intersection operation failed: " ++ e)])
        | .ok _ =>
          match loadVector o s outputPath with
          | .error e =>
            (s, [.info "Intersection operation completed!",
              .critical ("Intersection operation failed: " ++ e)])
          | .ok s2 => (s2, [.info "Intersection operation completed!"])

/-! ### Raster band algebra -/

/-- `band1, band2 = int(band1), int(band2) if band2 else None`: the
first field must convert with `int(...)`; the second is converted only
when it is a truthy (nonempty) string (`calculateLST` passes `None`).
A `ValueError` from either conversion is caught by the operation. -/
def parseBandPair (band1 : String) (band2 : Option String) : Except PyErr (ℤ × Option ℤ) :=
  match pyIntParse band1 with
  | none => .error "invalid literal for int with base 10"
  | some i1 =>
    match band2 with
    | none => .ok (i1, none)
    | some b2 =>
      if b2 = "" then .ok (i1, none)
      else
        match pyIntParse b2 with
        | none => .error "invalid literal for int with base 10"
        | some i2 => .ok (i1, some i2)

/-- `data2 = src.read(band2).astype(np.float32) if band2 else None`:
the truthiness test is on the *integer* `band2`, so band `0` is falsy
and skips the read. -/
def readData2 (src : RasterSrc) (i2 : Option ℤ) : Except PyErr (Option Grid) :=
  match i2 with
  | none => .ok none
  | some n => if n = 0 then .ok none else
    match src.read n with
    | .error e => .error e
    | .ok g => .ok (some g)

/-- Opening the output path for writing (failure = unwritable path)
followed by rasterio's shape check on `dst.write(result, 1)` against
the profile taken from the source. -/
def writeRaster (o : Oracle) (path : String) (h w : ℕ) (g : Grid) : Except PyErr Unit :=
  match o.openWrite path with
  | .error e => .error e
  | .ok _ => if shapeOk g h w then .ok () else .error "Source shape does not match raster shape"

/-- `calculateRasterIndex`: inside one `try`, convert the band texts,
open and read the band(s), run the supplied `calculation` lambda,
write the result under the source's profile (dtype overridden to
float32), show the success box and re-load the output as a new raster
layer; any exception instead shows `Calculation failed: ...` and
leaves the state untouched. -/
def calculateRasterIndex (o : Oracle) (s : AppState) (rasterFile band1 : String)
    (band2 : Option String) (outputFile : String)
    (calculation : Grid → Option Grid → Except PyErr Grid) : AppState × List Dialog :=
  match parseBandPair band1 band2 with
  | .error e => (s, [.critical ("Calculation failed: " ++ e)])
  | .ok (i1, i2) =>
    match o.openRead rasterFile with
    | .error e => (s, [.critical ("Calculation failed: " ++ e)])
    | .ok src =>
      match src.read i1 with
      | .error e => (s, [.critical ("Calculation failed: " ++ e)])
      | .ok data1 =>
        match readData2 src i2 with
        | .error e => (s, [.critical ("Calculation failed: " ++ e)])
        | .ok data2 =>
          match calculation data1 data2 with
          | .error e => (s, [.critical ("Calculation failed: " ++ e)])
          | .ok result =>
            match writeRaster o outputFile src.h src.w result with
            | .error e => (s, [.critical ("Calculation failed: " ++ e)])
            | .ok _ =>
              match loadRaster o s outputFile with
              | .error e =>
                (s, [.info ("Calculation completed: " ++ outputFile),
                  .critical ("Calculation failed: " ++ e)])
              | .ok s2 => (s2, [.info ("Calculation completed: " ++ outputFile)])

/-- The normalized-difference lambda `(a - b) / (a + b)` shared by the
NDVI and NDBI tools, on float32 arrays; called with `data2 = None`
(impossible through these two tools) the subtraction raises a
`TypeError`, caught by the operation. -/
def normDiff (a : Grid) (b : Option Grid) : Except PyErr Grid :=
  match b with
  | none => .error "unsupported operand type"
  | some bg =>
    match gridZip sub32 a bg with
    | .error e => .error e
    | .ok diff =>
      match gridZip add32 a bg with
      | .error e => .error e
      | .ok tot => gridZip div32 diff tot

/-- The value `normDiff` computes when both grids share a rectangular
shape (broadcasting degenerates to plain `zipWith`): cellwise
`(a - b) / (a + b)` in float32. -/
def ndviPure (a b : Grid) : Grid :=
  List.zipWith (List.zipWith div32)
    (List.zipWith (List.zipWith sub32) a b)
    (List.zipWith (List.zipWith add32) a b)

/-- The float32 constant `np.float32(0.00341802)`. -/
def c341802 : Fl := r32 (341802 / 100000000)

/-- The float32 constant `149`. -/
def c149 : Fl := r32 149

/-- The float32 constant `np.float32(273.15)`. -/
def c27315 : Fl := r32 (27315 / 100)

/-- One cell of the LST lambda `(t * 0.00341802 + 149) - 273.15`:
numpy keeps a float32 array's dtype against Python scalars, so each
step is a float32 operation with the scalar rounded to float32. -/
def lstCell (t : Fl) : Fl := sub32 (add32 (mul32 t c341802) c149) c27315

/-- The LST lambda `lambda t, _: (t * 0.00341802 + 149) - 273.15`,
elementwise on the band grid (the second argument is unused). -/
def lstLam (t : Grid) (_u : Option Grid) : Except PyErr Grid :=
  .ok (t.map (fun row => row.map lstCell))

/-- `calculateNDVI(rasterFile, redBand, nirBand, outputFile)`: band 1
of the tool dialog is bound to `redBand`, band 2 to `nirBand`, and the
lambda's first parameter (named `nir`) receives `data1 = read(redBand)`. -/
def calculateNDVI (o : Oracle) (s : AppState) (rasterFile redBand nirBand outputFile : String) :
    AppState × List Dialog :=
  calculateRasterIndex o s rasterFile redBand (some nirBand) outputFile normDiff

/-- `calculateNDBI(rasterFile, swirBand, nirBand, outputFile)`. -/
def calculateNDBI (o : Oracle) (s : AppState) (rasterFile swirBand nirBand outputFile : String) :
    AppState × List Dialog :=
  calculateRasterIndex o s rasterFile swirBand (some nirBand) outputFile normDiff

/-- `calculateLST(rasterFile, thermalBand, _, outputFile)`: passes
`None` as `band2` (the dialog's second band text is discarded). -/
def calculateLST (o : Oracle) (s : AppState) (rasterFile thermalBand : String)
    (_secondText : Option String) (outputFile : String) : AppState × List Dialog :=
  calculateRasterIndex o s rasterFile thermalBand none outputFile lstLam

/-- `/ 2` on a float32 array (the Python int `2` is exact in
float32). -/
def scalarDivTwo (g : Grid) : Grid :=
  g.map (fun row => row.map (fun x => div32 x (Fl.num 2)))

/-- `uhi_data = lst_data - (ndvi_data + ndbi_data) / 2` with numpy
broadcasting. -/
def overlayBody (lst ndvi ndbi : Grid) : Except PyErr Grid :=
  match gridZip add32 ndvi ndbi with
  | .error e => .error e
  | .ok t => gridZip sub32 lst (scalarDivTwo t)

/-- `calculateOverlay`: inside one `try`, open the three rasters, read
band 1 of each as float32, compute the UHI array, write it under the
LST source's profile, show the success box and re-load the output as a
new raster layer; any exception instead shows
`UHI calculation failed: ...` and leaves the state untouched. -/
def calculateOverlay (o : Oracle) (s : AppState) (lstFile ndviFile ndbiFile outputFile : String) :
    AppState × List Dialog :=
  match o.openRead lstFile with
  | .error e => (s, [.critical ("UHI calculation failed: " ++ e)])
  | .ok lst_src =>
    match o.openRead ndviFile with
    | .error e => (s, [.critical ("UHI calculation failed: " ++ e)])
    | .ok ndvi_src =>
      match o.openRead ndbiFile with
      | .error e => (s, [.critical ("UHI calculation failed: " ++ e)])
      | .ok ndbi_src =>
        match lst_src.read 1 with
        | .error e => (s, [.critical ("UHI calculation failed: " ++ e)])
        | .ok lst_data =>
          match ndvi_src.read 1 with
          | .error e => (s, [.critical ("UHI calculation failed: " ++ e)])
          | .ok ndvi_data =>
            match ndbi_src.read 1 with
            | .error e => (s, [.critical ("UHI calculation failed: " ++ e)])
            | .ok ndbi_data =>
              match overlayBody lst_data ndvi_data ndbi_data with
              | .error e => (s, [.critical ("UHI calculation failed: " ++ e)])
              | .ok uhi_data =>
                match writeRaster o outputFile lst_src.h lst_src.w uhi_data with
                | .error e => (s, [.critical ("UHI calculation failed: " ++ e)])
                | .ok _ =>
                  match loadRaster o s outputFile with
                  | .error e =>
                    (s, [.info ("UHI calculation completed: " ++ outputFile),
                      .critical ("UHI calculation failed: " ++ e)])
                  | .ok s2 => (s2, [.info ("UHI calculation completed: " ++ outputFile)])

/-! ### Operation sequences

The registry/TOC state machine driven by the user: successful file
loads (an add), the context-menu remove on a selected row, and a
checkbox click.  A successful load of a path always has a nonempty
basename (opening a directory or a path with a trailing slash fails
before the registry is touched), which theorems track as a
well-formedness side condition. -/

inductive Op where
  | loadR (path : String) (grid : Grid) : Op
  | loadV (path : String) (features : List Feature) : Op
  | removeRow (row : ℕ) : Op
  | toggleRow (row : ℕ) : Op
  deriving DecidableEq, Repr

/-- Effect of one operation: loads are the success branches of
`loadRaster` / `loadVector` with the oracle returning the given
payload. -/
def applyOp (s : AppState) : Op → AppState
  | .loadR p g => updateTOC { s with layers := dictSet s.layers (basename p) (.raster g) }
  | .loadV p fs => updateTOC { s with layers := dictSet s.layers (basename p) (.vector fs) }
  | .removeRow r => removeLayer s r
  | .toggleRow i => toggleLayer s i

def runOps (ops : List Op) : AppState := ops.foldl applyOp emptyState

/-- A load that succeeded cannot have an empty basename. -/
def opWf : Op → Prop
  | .loadR p _ => basename p ≠ ""
  | .loadV p _ => basename p ≠ ""
  | .removeRow _ => True
  | .toggleRow _ => True

/-- Names of the TOC rows, in widget order (row 0 first). -/
def tocNames (s : AppState) : List String := s.toc.map TocRow.checkName

/-- Keys of the registry, in dict (insertion) order. -/
def layerKeys (s : AppState) : List String := s.layers.map Prod.fst

/-- The top-to-bottom enumeration the compositor walks: TOC rows from
the last index down. -/
def topToBottom (s : AppState) : List String := (tocNames s).reverse

/-! ### Definitions taken from the specification's words

These follow the spec text (not the code) and exist to be compared
against the embedded code. -/

/-- Modelled from the spec: "walk layers top-to-bottom; select the
first layer that is both visible and present".  (The walk is the TOC
reversed; selection is `find?`.) -/
def specTopmostVisible (s : AppState) : Option TocRow :=
  s.toc.reverse.find? (visPred s.layers)

/-- Modelled from the spec: the surviving names in "top-to-bottom =
most-recent-add-first order" — an add inserts (or moves) the name to
the front of the top-to-bottom enumeration, a remove of a selected row
deletes that name, a visibility toggle changes nothing. -/
def specApplyOp (names : List String) : Op → List String
  | .loadR p _ => basename p :: names.erase (basename p)
  | .loadV p _ => basename p :: names.erase (basename p)
  | .removeRow r => names.eraseIdx (names.length - 1 - r)
  | .toggleRow _ => names

/-- Modelled from the spec: the top-to-bottom enumeration predicted for
a sequence of operations. -/
def specTopToBottom (ops : List Op) : List String := ops.foldl specApplyOp []

/-- Modelled from the spec: the simplified LST formula
`v·0.00341802 − 124.15`, evaluated in the engine's 32-bit floating
point. -/
def lstSimpleCell (v : Fl) : Fl := sub32 (mul32 v c341802) (r32 (12415 / 100))

/-- The source's LST formula `(v·0.00341802 + 149) − 273.15` read in
exact (real/rational) arithmetic, with the literals as exact decimals. -/
def lstExactFormula (v : ℚ) : ℚ := (v * (341802 / 100000000) + 149) - 27315 / 100

/-! ### Concrete instances

Small concrete grids, feature tables and oracles used to evaluate the
operations at specific inputs. -/

def gOne : Grid := [[Fl.num 1]]

def gTwo : Grid := [[Fl.num 2]]

def gThree : Grid := [[Fl.num 3]]

def fA : Feature := { geom := { code := 1 }, attrs := { code := 11 } }

def fB : Feature := { geom := { code := 2 }, attrs := { code := 22 } }

def fC : Feature := { geom := { code := 3 }, attrs := { code := 33 } }

/-- The 2×2 LST grid of the overlay shape counterexample. -/
def lstGrid22 : Grid := [[Fl.num 1, Fl.num 1], [Fl.num 1, Fl.num 1]]

/-- The 1×2 NDVI/NDBI grid of the overlay shape counterexample. -/
def narrowGrid12 : Grid := [[Fl.zero false, Fl.zero false]]

/-- A 2×3 zero grid (broadcast-incompatible with a 2×2 one). -/
def zeros23 : Grid :=
  [[Fl.zero false, Fl.zero false, Fl.zero false],
   [Fl.zero false, Fl.zero false, Fl.zero false]]

/-- An oracle for the overlay shape scenarios: several readable
single-band rasters of various shapes, a writable output path, and a
written file that reads back as a 2×2 raster. -/
def oC5 : Oracle where
  openRead p :=
    if p = "lst.tif" then .ok { h := 2, w := 2, bands := [lstGrid22] }
    else if p = "ndvi.tif" then .ok { h := 1, w := 2, bands := [narrowGrid12] }
    else if p = "ndbi.tif" then .ok { h := 1, w := 2, bands := [narrowGrid12] }
    else if p = "out.tif" then .ok { h := 2, w := 2, bands := [lstGrid22] }
    else if p = "wide.tif" then .ok { h := 2, w := 3, bands := [zeros23] }
    else if p = "square.tif" then .ok { h := 2, w := 2, bands := [lstGrid22] }
    else if p = "narrow.tif" then .ok { h := 1, w := 2, bands := [narrowGrid12] }
    else .error "No such file or directory"
  openWrite _ := .ok ()
  readVector _ := .error "No such file or directory"
  writeVector _ _ := .ok ()
  readDB _ := .error "no connection"
  bufferG _ g := .ok g
  clipG _ _ := .error "not used"
  overlayG _ _ := .error "not used"

/-- An oracle for the non-finite buffer distance counterexample: the
input shapefile is readable, the buffer engine accepts the request,
and the output path is writable and reads back. -/
def oC6 : Oracle where
  openRead _ := .error "No such file or directory"
  openWrite _ := .ok ()
  readVector p :=
    if p = "in.shp" then .ok [fA]
    else if p = "out.shp" then .ok [fB]
    else .error "No such file or directory"
  writeVector _ _ := .ok ()
  readDB _ := .error "no connection"
  bufferG _ g := .ok { code := g.code + 100 }
  clipG _ _ := .error "not used"
  overlayG _ _ := .error "not used"

/-- An oracle whose reads and geometry computations succeed but whose
writes fail (an unwritable output path). -/
def oWriteFail : Oracle where
  openRead _ := .ok { h := 1, w := 1, bands := [gOne, gTwo] }
  openWrite _ := .error "Permission denied"
  readVector _ := .ok [fA, fB]
  writeVector _ _ := .error "Permission denied"
  readDB _ := .ok [fC]
  bufferG _ g := .ok g
  clipG a _ := .ok a
  overlayG a _ := .ok a

/-- An oracle for the NDVI division-by-zero witness: one raster with
two 1×1 bands `[[1]]` and `[[-1]]`, a writable output that reads back
as the computed `[[∞]]`. -/
def oC7 : Oracle where
  openRead p :=
    if p = "scene.tif" then .ok { h := 1, w := 1, bands := [gOne, [[Fl.num (-1)]]] }
    else if p = "ndvi_out.tif" then .ok { h := 1, w := 1, bands := [[[Fl.inf false]]] }
    else .error "No such file or directory"
  openWrite _ := .ok ()
  readVector _ := .error "not used"
  writeVector _ _ := .ok ()
  readDB _ := .error "no connection"
  bufferG _ g := .ok g
  clipG _ _ := .error "not used"
  overlayG _ _ := .error "not used"

/-- An oracle whose raster reads succeed with a fixed single-band
source and whose vector/database reads succeed. -/
def oHappy : Oracle where
  openRead _ := .ok { h := 1, w := 1, bands := [gOne] }
  openWrite _ := .ok ()
  readVector _ := .ok [fA]
  writeVector _ _ := .ok ()
  readDB _ := .ok [fC]
  bufferG _ g := .ok g
  clipG a _ := .ok a
  overlayG a _ := .ok a

/-! ### Invariant of reachable states -/

/-- Invariant of every reachable state: TOC items carry empty item
text (they are created bare by `updateTOC`), the empty string is never
a registry key (a successful load has a nonempty basename), and the
TOC names are a subsequence of the registry keys in order. -/
def invState (s : AppState) : Prop :=
  (∀ r ∈ s.toc, r.itemText = "") ∧ "" ∉ layerKeys s ∧ (tocNames s).Sublist (layerKeys s)

attribute [local semireducible] Rat.add Rat.mul Rat.sub Rat.inv Rat.ofScientific

set_option maxRecDepth 4000

/-! ### Helper lemmas -/

theorem dictGet?_eq_none_of_not_mem (l : Layers) (k : String) (h : k ∉ l.map Prod.fst) :
    dictGet? l k = none := by
  induction l with
  | nil => rfl
  | cons p rest ih =>
    simp only [List.map_cons, List.mem_cons] at h
    push_neg at h
    simp only [dictGet?]
    rw [if_neg (fun hk => h.1 hk.symm)]
    exact ih h.2

theorem keys_dictSet_mem (l : Layers) (k : String) (v : LayerData)
    (h : (dictGet? l k).isSome) : (dictSet l k v).map Prod.fst = l.map Prod.fst := by
  induction l with
  | nil => simp [dictGet?] at h
  | cons p rest ih =>
    obtain ⟨k1, v1⟩ := p
    by_cases hk : k1 = k
    · simp [dictSet, hk]
    · simp only [dictGet?] at h
      rw [if_neg hk] at h
      simp [dictSet, hk, ih h]

theorem keys_dictSet_new (l : Layers) (k : String) (v : LayerData)
    (h : dictGet? l k = none) : (dictSet l k v).map Prod.fst = l.map Prod.fst ++ [k] := by
  induction l with
  | nil => simp [dictSet]
  | cons p rest ih =>
    obtain ⟨k1, v1⟩ := p
    by_cases hk : k1 = k
    · simp only [dictGet?] at h
      rw [if_pos hk] at h
      exact absurd h (by simp)
    · simp only [dictGet?] at h
      rw [if_neg hk] at h
      simp [dictSet, hk, ih h]

theorem dictGet?_dictSet_self (l : Layers) (k : String) (v : LayerData) :
    dictGet? (dictSet l k v) k = some v := by
  induction l with
  | nil => simp [dictSet, dictGet?]
  | cons p rest ih =>
    obtain ⟨k1, v1⟩ := p
    by_cases hk : k1 = k
    · simp [dictSet, dictGet?, hk]
    · simp [dictSet, dictGet?, hk, ih]

theorem dictGet?_dictSet_ne (l : Layers) (k : String) (v : LayerData) (k2 : String)
    (h : k2 ≠ k) : dictGet? (dictSet l k v) k2 = dictGet? l k2 := by
  have hne : ¬ k = k2 := fun hk => h hk.symm
  induction l with
  | nil => simp [dictSet, dictGet?, hne]
  | cons p rest ih =>
    obtain ⟨k1, v1⟩ := p
    by_cases hk : k1 = k
    · subst hk
      simp only [dictSet, if_pos rfl, dictGet?]
      rw [if_neg hne, if_neg hne]
    · simp only [dictSet, if_neg hk, dictGet?, ih]

theorem getD_mem {α : Type} (d : α) :
    ∀ (l : List α) (i : ℕ), i < l.length → l.getD i d ∈ l := by
  intro l
  induction l with
  | nil => intro i h; simp at h
  | cons a rest ih =>
    intro i h
    cases i with
    | zero => simp
    | succ n =>
      simp only [List.getD_cons_succ]
      exact List.mem_cons_of_mem _ (ih n (by simpa using h))

theorem map_modifyIdx {α β : Type} (f : α → α) (g : α → β) (hf : ∀ a, g (f a) = g a) :
    ∀ (i : ℕ) (l : List α), (modifyIdx f i l).map g = l.map g := by
  intro i l
  induction l generalizing i with
  | nil => cases i <;> rfl
  | cons a rest ih =>
    cases i with
    | zero => simp [modifyIdx, hf]
    | succ n => simp [modifyIdx, ih]

theorem mem_modifyIdx {α : Type} (f : α → α) :
    ∀ (i : ℕ) (l : List α) (b : α), b ∈ modifyIdx f i l → b ∈ l ∨ ∃ a ∈ l, b = f a := by
  intro i l
  induction l generalizing i with
  | nil => intro b hb; cases i <;> simp [modifyIdx] at hb
  | cons a rest ih =>
    intro b hb
    cases i with
    | zero =>
      simp only [modifyIdx, List.mem_cons] at hb
      rcases hb with hb | hb
      · exact Or.inr ⟨a, by simp, hb⟩
      · exact Or.inl (List.mem_cons_of_mem _ hb)
    | succ n =>
      simp only [modifyIdx, List.mem_cons] at hb
      rcases hb with hb | hb
      · exact Or.inl (by simp [hb])
      · rcases ih n b hb with h | ⟨x, hx, hbx⟩
        · exact Or.inl (List.mem_cons_of_mem _ h)
        · exact Or.inr ⟨x, List.mem_cons_of_mem _ hx, hbx⟩

theorem layers_updateTOC (s : AppState) : (updateTOC s).layers = s.layers := rfl

theorem tocNames_updateTOC (s : AppState) : tocNames (updateTOC s) = layerKeys s := by
  simp [tocNames, updateTOC, layerKeys]

theorem itemText_updateTOC (s : AppState) :
    ∀ r ∈ (updateTOC s).toc, r.itemText = "" := by
  intro r hr
  simp only [updateTOC, List.mem_map] at hr
  obtain ⟨p, _, hp⟩ := hr
  rw [← hp]

theorem checked_updateTOC (s : AppState) :
    ∀ r ∈ (updateTOC s).toc, r.checked = true := by
  intro r hr
  simp only [updateTOC, List.mem_map] at hr
  obtain ⟨p, _, hp⟩ := hr
  rw [← hp]

theorem removeLayer_of_inv (s : AppState) (row : ℕ) (hrow : row < s.toc.length)
    (htext : ∀ r ∈ s.toc, r.itemText = "") (hkeys : "" ∉ layerKeys s) :
    removeLayer s row = { layers := s.layers, toc := s.toc.eraseIdx row } := by
  have hmem := getD_mem { itemText := "", checkName := "", checked := true } s.toc row hrow
  have ht := htext _ hmem
  have hnone := dictGet?_eq_none_of_not_mem s.layers "" hkeys
  unfold removeLayer
  rw [if_pos hrow]
  simp only [ht, hnone, Option.isSome_none, Bool.false_eq_true, if_false]

theorem invState_applyOp (s : AppState) (op : Op) (hs : invState s) (hop : opWf op) :
    invState (applyOp s op) := by
  obtain ⟨htext, hkeys, hsub⟩ := hs
  cases op with
  | loadR p g =>
    have hlay : (applyOp s (Op.loadR p g)).layers = dictSet s.layers (basename p) (.raster g) := rfl
    refine ⟨itemText_updateTOC _, ?_, ?_⟩
    · intro hmem
      simp only [layerKeys, hlay] at hmem
      by_cases hin : (dictGet? s.layers (basename p)).isSome
      · rw [keys_dictSet_mem _ _ _ hin] at hmem
        exact hkeys hmem
      · rw [keys_dictSet_new _ _ _ (by simpa using hin)] at hmem
        rcases List.mem_append.mp hmem with h | h
        · exact hkeys h
        · exact hop ((List.mem_singleton.mp h).symm)
    · rw [show applyOp s (Op.loadR p g)
          = updateTOC { s with layers := dictSet s.layers (basename p) (.raster g) } from rfl,
        tocNames_updateTOC]
      exact List.Sublist.refl _
  | loadV p fs =>
    have hlay : (applyOp s (Op.loadV p fs)).layers = dictSet s.layers (basename p) (.vector fs) := rfl
    refine ⟨itemText_updateTOC _, ?_, ?_⟩
    · intro hmem
      simp only [layerKeys, hlay] at hmem
      by_cases hin : (dictGet? s.layers (basename p)).isSome
      · rw [keys_dictSet_mem _ _ _ hin] at hmem
        exact hkeys hmem
      · rw [keys_dictSet_new _ _ _ (by simpa using hin)] at hmem
        rcases List.mem_append.mp hmem with h | h
        · exact hkeys h
        · exact hop ((List.mem_singleton.mp h).symm)
    · rw [show applyOp s (Op.loadV p fs)
          = updateTOC { s with layers := dictSet s.layers (basename p) (.vector fs) } from rfl,
        tocNames_updateTOC]
      exact List.Sublist.refl _
  | removeRow row =>
    show invState (removeLayer s row)
    by_cases hrow : row < s.toc.length
    · rw [removeLayer_of_inv s row hrow htext hkeys]
      refine ⟨?_, hkeys, ?_⟩
      · intro r hr
        exact htext r ((s.toc.eraseIdx_sublist row).mem hr)
      · exact ((s.toc.eraseIdx_sublist row).map TocRow.checkName).trans hsub
    · unfold removeLayer
      rw [if_neg hrow]
      exact ⟨htext, hkeys, hsub⟩
  | toggleRow i =>
    refine ⟨?_, hkeys, ?_⟩
    · intro r hr
      rcases mem_modifyIdx _ i s.toc r hr with h | ⟨a, ha, hra⟩
      · exact htext r h
      · rw [hra]
        exact htext a ha
    · show ((toggleLayer s i).toc.map TocRow.checkName).Sublist _
      simp only [toggleLayer]
      rw [map_modifyIdx (fun r => { r with checked := !r.checked }) TocRow.checkName
        (fun a => rfl)]
      exact hsub

theorem invState_foldl (ops : List Op) :
    ∀ s : AppState, invState s → (∀ op ∈ ops, opWf op) →
      invState (ops.foldl applyOp s) := by
  induction ops with
  | nil => intro s hs _; exact hs
  | cons op rest ih =>
    intro s hs h
    exact ih _ (invState_applyOp s op hs (h op (List.mem_cons_self _ _)))
      (fun o ho => h o (List.mem_cons_of_mem _ ho))

theorem invState_runOps (ops : List Op) (h : ∀ op ∈ ops, opWf op) :
    invState (runOps ops) :=
  invState_foldl ops emptyState
    ⟨by intro r hr; simp [emptyState] at hr, by simp [layerKeys, emptyState],
      by simp [tocNames, layerKeys, emptyState]⟩ h

theorem updateDisplayLoop_eq_find? (ls : Layers) (l : List TocRow) :
    updateDisplayLoop ls l = (match l.find? (visPred ls) with
      | some r => drawCmdOf ls r
      | none => []) := by
  induction l with
  | nil => rfl
  | cons r rest ih =>
    cases hv : visPred ls r with
    | true =>
      rw [List.find?_cons_of_pos _ hv]
      simp only [updateDisplayLoop, hv, if_true]
    | false =>
      have hneg : ¬ (visPred ls r = true) := by simp [hv]
      rw [List.find?_cons_of_neg _ hneg]
      simp only [updateDisplayLoop, hv, Bool.false_eq_true, if_false, ih]

theorem drawCmdOf_length (ls : Layers) (r : TocRow) : (drawCmdOf ls r).length ≤ 1 := by
  unfold drawCmdOf
  cases dictGet? ls r.checkName with
  | none => simp
  | some d => cases d <;> simp

/-! ### Claim theorems -/

/-- C1: For every registry state, the render recompute `updateDisplay`
walks the TOC rows in top-to-bottom order (last widget row first),
issues the draw of exactly the first row that is both checked and
whose name is present in the registry — so at most one layer is ever
drawn, nothing below the selected one — and issues no draw at all
(the display stays cleared to empty) when no row qualifies. -/
theorem C1_updateDisplay_draws_topmost_visible_only (s : AppState) :
    updateDisplay s = (match specTopmostVisible s with
      | some r => drawCmdOf s.layers r
      | none => []) ∧ (updateDisplay s).length ≤ 1 := by
  have h := updateDisplayLoop_eq_find? s.layers s.toc.reverse
  refine ⟨h, ?_⟩
  rw [show updateDisplay s = updateDisplayLoop s.layers s.toc.reverse from rfl, h]
  cases hfind : List.find? (visPred s.layers) s.toc.reverse with
  | none => simp
  | some r => simpa using drawCmdOf_length s.layers r

/-- C2 (amended): For every sequence of add (successful load), remove
and visibility-toggle operations from the empty registry, the TOC
names are a subsequence of the registry keys in insertion order (a TOC
remove deletes only the row, never the registry entry, so the TOC can
lag behind the registry); immediately after any add the two coincide
exactly, with a re-added name keeping its original position rather
than moving to the top; and the compositor always selects the first
checked-and-present entry of the top-to-bottom enumeration (or none). -/
theorem C2_registry_toc_invariant (ops : List Op) (h : ∀ op ∈ ops, opWf op) :
    (tocNames (runOps ops)).Sublist (layerKeys (runOps ops))
    ∧ (∀ p g, tocNames (runOps (ops ++ [Op.loadR p g]))
        = layerKeys (runOps (ops ++ [Op.loadR p g])))
    ∧ updateDisplay (runOps ops) = (match specTopmostVisible (runOps ops) with
        | some r => drawCmdOf (runOps ops).layers r
        | none => []) := by
  refine ⟨(invState_runOps ops h).2.2, ?_, updateDisplayLoop_eq_find? _ _⟩
  intro p g
  show tocNames (List.foldl applyOp emptyState (ops ++ [Op.loadR p g]))
    = layerKeys (List.foldl applyOp emptyState (ops ++ [Op.loadR p g]))
  rw [List.foldl_append]
  exact tocNames_updateTOC _

/-- Witness for C2 (amended): the sequence `[load "w.tif"]` satisfies
the invariant, adding `"x.tif"` re-synchronises TOC and registry, and
the compositor draws the single visible layer. -/
theorem C2_registry_toc_invariant_witness :
    (tocNames (runOps [Op.loadR "w.tif" gOne])).Sublist
        (layerKeys (runOps [Op.loadR "w.tif" gOne]))
    ∧ tocNames (runOps ([Op.loadR "w.tif" gOne] ++ [Op.loadR "x.tif" gTwo]))
        = layerKeys (runOps ([Op.loadR "w.tif" gOne] ++ [Op.loadR "x.tif" gTwo]))
    ∧ updateDisplay (runOps [Op.loadR "w.tif" gOne]) = [DrawCmd.raster gOne] := by
  have h := C2_registry_toc_invariant [Op.loadR "w.tif" gOne] (by
    intro op hop
    rw [List.mem_singleton] at hop
    subst hop
    show basename "w.tif" ≠ ""
    decide)
  exact ⟨h.1, h.2.1 "x.tif" gTwo, h.2.2.trans (by decide)⟩

/-- C2 (counterexample): after `load "a.tif"; load "b.tif";
load "a.tif"` the spec's most-recent-add-first enumeration is
`["a.tif", "b.tif"]`, but the code's top-to-bottom enumeration is
`["b.tif", "a.tif"]`: the Python dict keeps a re-assigned key at its
original position, so the re-added layer is not on top. -/
theorem C2_counterexample :
    specTopToBottom [Op.loadR "a.tif" gOne, Op.loadR "b.tif" gTwo, Op.loadR "a.tif" gThree]
        = ["a.tif", "b.tif"]
    ∧ topToBottom (runOps [Op.loadR "a.tif" gOne, Op.loadR "b.tif" gTwo, Op.loadR "a.tif" gThree])
        = ["b.tif", "a.tif"]
    ∧ topToBottom (runOps [Op.loadR "a.tif" gOne, Op.loadR "b.tif" gTwo, Op.loadR "a.tif" gThree])
        ≠ specTopToBottom [Op.loadR "a.tif" gOne, Op.loadR "b.tif" gTwo, Op.loadR "a.tif" gThree] := by
  decide

/-- C3 (amended): adding a layer whose name already exists replaces
the existing entry's payload *in place*: the key order — and hence
every layer's relative order — is unchanged, the stored payload is the
new one, and every other entry is untouched.  (The layer is *not*
moved to the top of the order.) -/
theorem C3_readd_replaces_in_place (l : Layers) (k : String) (v w : LayerData)
    (h : dictGet? l k = some w) :
    (dictSet l k v).map Prod.fst = l.map Prod.fst
    ∧ dictGet? (dictSet l k v) k = some v
    ∧ ∀ k2, k2 ≠ k → dictGet? (dictSet l k v) k2 = dictGet? l k2 :=
  ⟨keys_dictSet_mem l k v (by simp [h]), dictGet?_dictSet_self l k v,
    fun k2 hk2 => dictGet?_dictSet_ne l k v k2 hk2⟩

/-- Witness for C3 (amended): re-adding `"roads.shp"` to a two-layer
registry keeps the key order, stores the new payload, and leaves
`"lakes.shp"` untouched. -/
theorem C3_readd_replaces_in_place_witness :
    (dictSet [("roads.shp", LayerData.vector [fA]), ("lakes.shp", LayerData.vector [fB])]
        "roads.shp" (LayerData.vector [fC])).map Prod.fst
      = [("roads.shp", LayerData.vector [fA]), ("lakes.shp", LayerData.vector [fB])].map Prod.fst
    ∧ dictGet? (dictSet [("roads.shp", LayerData.vector [fA]), ("lakes.shp", LayerData.vector [fB])]
        "roads.shp" (LayerData.vector [fC])) "roads.shp" = some (LayerData.vector [fC])
    ∧ dictGet? (dictSet [("roads.shp", LayerData.vector [fA]), ("lakes.shp", LayerData.vector [fB])]
        "roads.shp" (LayerData.vector [fC])) "lakes.shp"
      = dictGet? [("roads.shp", LayerData.vector [fA]), ("lakes.shp", LayerData.vector [fB])] "lakes.shp" := by
  have h := C3_readd_replaces_in_place
    [("roads.shp", LayerData.vector [fA]), ("lakes.shp", LayerData.vector [fB])]
    "roads.shp" (LayerData.vector [fC]) (LayerData.vector [fA]) (by decide)
  exact ⟨h.1, h.2.1, h.2.2 "lakes.shp" (by decide)⟩

/-- C3 (counterexample): after `load "roads.shp"; load "lakes.shp"`,
re-loading `"roads.shp"` replaces its payload but leaves it at the
*bottom* of the order — the topmost layer is still `"lakes.shp"`, so
the claim that a re-added layer is placed at the top fails. -/
theorem C3_counterexample :
    (runOps [Op.loadV "roads.shp" [fA], Op.loadV "lakes.shp" [fB],
        Op.loadV "roads.shp" [fC]]).layers
      = [("roads.shp", LayerData.vector [fC]), ("lakes.shp", LayerData.vector [fB])]
    ∧ topToBottom (runOps [Op.loadV "roads.shp" [fA], Op.loadV "lakes.shp" [fB],
        Op.loadV "roads.shp" [fC]]) = ["lakes.shp", "roads.shp"]
    ∧ (topToBottom (runOps [Op.loadV "roads.shp" [fA], Op.loadV "lakes.shp" [fB],
        Op.loadV "roads.shp" [fC]])).head? ≠ some "roads.shp" := by
  decide

/-- C9: every successful add — file load (raster or vector) or
database import — rebuilds the whole table of contents from the
registry with every checkbox freshly created checked: afterwards every
registry layer has a row, and every row is checked (visible),
discarding any visibility flag the user had previously cleared. -/
theorem C9_add_rebuilds_toc_all_checked (o : Oracle) (s s2 : AppState) :
    (∀ p, loadRaster o s p = .ok s2 →
      s2.toc = s2.layers.map (fun q => { itemText := "", checkName := q.1, checked := true })
      ∧ ∀ r ∈ s2.toc, r.checked = true)
    ∧ (∀ p, loadVector o s p = .ok s2 →
      s2.toc = s2.layers.map (fun q => { itemText := "", checkName := q.1, checked := true })
      ∧ ∀ r ∈ s2.toc, r.checked = true)
    ∧ (∀ t d, t ≠ "" → loadDataFromDatabase o s t = (s2, d) → (o.readDB t).isOk →
      s2.toc = s2.layers.map (fun q => { itemText := "", checkName := q.1, checked := true })
      ∧ ∀ r ∈ s2.toc, r.checked = true) := by
  refine ⟨?_, ?_, ?_⟩
  · intro p hload
    unfold loadRaster at hload
    cases ho : o.openRead p with
    | error e => rw [ho] at hload; dsimp only at hload; exact absurd hload (by simp)
    | ok src =>
      rw [ho] at hload
      dsimp only at hload
      cases hr : src.read 1 with
      | error e => rw [hr] at hload; dsimp only at hload; exact absurd hload (by simp)
      | ok data =>
        rw [hr] at hload
        dsimp only at hload
        simp only [Except.ok.injEq] at hload
        subst hload
        exact ⟨rfl, checked_updateTOC _⟩
  · intro p hload
    unfold loadVector at hload
    cases ho : o.readVector p with
    | error e => rw [ho] at hload; dsimp only at hload; exact absurd hload (by simp)
    | ok gdf =>
      rw [ho] at hload
      dsimp only at hload
      simp only [Except.ok.injEq] at hload
      subst hload
      exact ⟨rfl, checked_updateTOC _⟩
  · intro t d ht hload hok
    unfold loadDataFromDatabase at hload
    rw [if_neg ht] at hload
    cases ho : o.readDB t with
    | error e => rw [ho] at hok; exact absurd hok (by simp [Except.isOk, Except.toBool])
    | ok gdf =>
      rw [ho] at hload
      dsimp only at hload
      simp only [Prod.mk.injEq] at hload
      rw [← hload.1]
      exact ⟨rfl, checked_updateTOC _⟩

/-- Witness for C9: loading `"w.tif"` into the empty state yields a
TOC mirroring the registry with the single row checked. -/
theorem C9_add_rebuilds_toc_all_checked_witness :
    (runOps [Op.loadR "w.tif" gOne]).toc
      = (runOps [Op.loadR "w.tif" gOne]).layers.map
          (fun q => { itemText := "", checkName := q.1, checked := true })
    ∧ ∀ r ∈ (runOps [Op.loadR "w.tif" gOne]).toc, r.checked = true := by
  have h := (C9_add_rebuilds_toc_all_checked oHappy emptyState
    (runOps [Op.loadR "w.tif" gOne])).1 "w.tif" rfl
  exact h

/-- C10: in every reachable state, `removeLayer` looks the registry
key up via the selected `QListWidgetItem`'s own text, which is the
empty string for the rows `updateTOC` builds (the name lives on the
checkbox widget instead); since the empty string is never a registry
key, the deletion branch is never taken: the registry is left exactly
as it was and only the table-of-contents row disappears. -/
theorem C10_removeLayer_leaves_registry (ops : List Op) (row : ℕ)
    (h : ∀ op ∈ ops, opWf op) (hrow : row < (runOps ops).toc.length) :
    removeLayer (runOps ops) row
      = { layers := (runOps ops).layers, toc := (runOps ops).toc.eraseIdx row }
    ∧ ∀ r ∈ (runOps ops).toc, r.itemText = "" := by
  obtain ⟨htext, hkeys, _⟩ := invState_runOps ops h
  exact ⟨removeLayer_of_inv _ row hrow htext hkeys, htext⟩

/-- Witness for C10: removing the only row after loading `"r.tif"`
leaves the layer registered while the TOC becomes empty. -/
theorem C10_removeLayer_leaves_registry_witness :
    removeLayer (runOps [Op.loadR "r.tif" gOne]) 0
      = { layers := [("r.tif", LayerData.raster gOne)], toc := [] } := by
  have h := C10_removeLayer_leaves_registry [Op.loadR "r.tif" gOne] 0
    (by
      intro op hop
      rw [List.mem_singleton] at hop
      subst hop
      show basename "r.tif" ≠ ""
      decide)
    (by decide)
  exact h.1.trans (by decide)

/-- C4: for every geoprocessing or band-algebra operation, when the
write of the output fails (the oracle's open-for-write reports an
unwritable path after every earlier step succeeded), the whole
application state — registry and TOC — is returned unchanged and the
failure is reported to the user as the operation's error dialog
carrying the write failure's cause; registration (`loadRaster` /
`loadVector` of the output) is sequenced strictly after a successful
write, and the caught exception never escapes (the operation still
returns normally). -/
theorem C4_write_failure_leaves_registry_unchanged :
    (∀ (o : Oracle) (s : AppState) (rf b1 : String) (b2 : Option String) (out : String)
      (calcF : Grid → Option Grid → Except PyErr Grid) (i1 : ℤ) (i2 : Option ℤ)
      (src : RasterSrc) (d1 : Grid) (d2 : Option Grid) (res : Grid) (e : PyErr),
      parseBandPair b1 b2 = .ok (i1, i2) → o.openRead rf = .ok src →
      src.read i1 = .ok d1 → readData2 src i2 = .ok d2 → calcF d1 d2 = .ok res →
      o.openWrite out = .error e →
      calculateRasterIndex o s rf b1 b2 out calcF = (s, [.critical ("Calculation failed: " ++ e)]))
    ∧ (∀ (o : Oracle) (s : AppState) (ip op dist : String) (d : Fl)
      (gdf gdf2 : List Feature) (e : PyErr),
      pyFloatParse dist = some d → o.readVector ip = .ok gdf →
      bufferFeatures o d gdf = .ok gdf2 → o.writeVector op gdf2 = .error e →
      calculateBuffer o s ip op dist = (s, [.critical ("Buffer operation failed: " ++ e)]))
    ∧ (∀ (o : Oracle) (s : AppState) (ip cp op : String) (g1 g2 g3 : List Feature) (e : PyErr),
      o.readVector ip = .ok g1 → o.readVector cp = .ok g2 → o.clipG g1 g2 = .ok g3 →
      o.writeVector op g3 = .error e →
      calculateClip o s ip cp op = (s, [.critical ("Clip operation failed: " ++ e)]))
    ∧ (∀ (o : Oracle) (s : AppState) (p1 p2 op : String) (g1 g2 g3 : List Feature) (e : PyErr),
      o.readVector p1 = .ok g1 → o.readVector p2 = .ok g2 → o.overlayG g1 g2 = .ok g3 →
      o.writeVector op g3 = .error e →
      calculateIntersect o s p1 p2 op = (s, [.critical ("Intersection operation failed: " ++ e)]))
    ∧ (∀ (o : Oracle) (s : AppState) (lf nf bf out : String) (ls ns bs : RasterSrc)
      (g1 g2 g3 u : Grid) (e : PyErr),
      o.openRead lf = .ok ls → o.openRead nf = .ok ns → o.openRead bf = .ok bs →
      ls.read 1 = .ok g1 → ns.read 1 = .ok g2 → bs.read 1 = .ok g3 →
      overlayBody g1 g2 g3 = .ok u → o.openWrite out = .error e →
      calculateOverlay o s lf nf bf out = (s, [.critical ("UHI calculation failed: " ++ e)])) := by
  refine ⟨?_, ?_, ?_, ?_, ?_⟩
  · intro o s rf b1 b2 out calcF i1 i2 src d1 d2 res e hparse hopen h1 h2 hcalc hw
    have hwr : writeRaster o out src.h src.w res = .error e := by
      unfold writeRaster
      rw [hw]
    unfold calculateRasterIndex
    rw [hparse]
    dsimp only
    rw [hopen]
    dsimp only
    rw [h1]
    dsimp only
    rw [h2]
    dsimp only
    rw [hcalc]
    dsimp only
    rw [hwr]
  · intro o s ip op dist d gdf gdf2 e hd hread hbuf hw
    unfold calculateBuffer
    rw [hd]
    dsimp only
    rw [hread]
    dsimp only
    rw [hbuf]
    dsimp only
    rw [hw]
  · intro o s ip cp op g1 g2 g3 e h1 h2 h3 hw
    unfold calculateClip
    rw [h1]
    dsimp only
    rw [h2]
    dsimp only
    rw [h3]
    dsimp only
    rw [hw]
  · intro o s p1 p2 op g1 g2 g3 e h1 h2 h3 hw
    unfold calculateIntersect
    rw [h1]
    dsimp only
    rw [h2]
    dsimp only
    rw [h3]
    dsimp only
    rw [hw]
  · intro o s lf nf bf out ls ns bs g1 g2 g3 u e ho1 ho2 ho3 hr1 hr2 hr3 hbody hw
    have hwr : writeRaster o out ls.h ls.w u = .error e := by
      unfold writeRaster
      rw [hw]
    unfold calculateOverlay
    rw [ho1]
    dsimp only
    rw [ho2]
    dsimp only
    rw [ho3]
    dsimp only
    rw [hr1]
    dsimp only
    rw [hr2]
    dsimp only
    rw [hr3]
    dsimp only
    rw [hbody]
    dsimp only
    rw [hwr]

/-- Witness for C4: against an oracle whose writes fail with
`Permission denied`, all five operations return the state unchanged
with the single error dialog. -/
theorem C4_write_failure_leaves_registry_unchanged_witness :
    calculateRasterIndex oWriteFail emptyState "a.tif" "1" (some "2") "out.tif"
        (fun g _ => .ok g)
      = (emptyState, [.critical "Calculation failed: Permission denied"])
    ∧ calculateBuffer oWriteFail emptyState "in.shp" "out.shp" "5"
      = (emptyState, [.critical "Buffer operation failed: Permission denied"])
    ∧ calculateClip oWriteFail emptyState "in.shp" "clip.shp" "out.shp"
      = (emptyState, [.critical "Clip operation failed: Permission denied"])
    ∧ calculateIntersect oWriteFail emptyState "a.shp" "b.shp" "out.shp"
      = (emptyState, [.critical "Intersection operation failed: Permission denied"])
    ∧ calculateOverlay oWriteFail emptyState "lst.tif" "ndvi.tif" "ndbi.tif" "out.tif"
      = (emptyState, [.critical "UHI calculation failed: Permission denied"]) := by
  obtain ⟨h1, h2, h3, h4, h5⟩ := C4_write_failure_leaves_registry_unchanged
  refine ⟨?_, ?_, ?_, ?_, ?_⟩
  · exact h1 oWriteFail emptyState "a.tif" "1" (some "2") "out.tif" (fun g _ => .ok g)
      1 (some 2) { h := 1, w := 1, bands := [gOne, gTwo] } gOne (some gTwo) gOne
      "Permission denied" rfl rfl rfl rfl rfl rfl
  · exact h2 oWriteFail emptyState "in.shp" "out.shp" "5" (Fl.num 5) [fA, fB] [fA, fB]
      "Permission denied" (by decide) rfl rfl rfl
  · exact h3 oWriteFail emptyState "in.shp" "clip.shp" "out.shp" [fA, fB] [fA, fB] [fA, fB]
      "Permission denied" rfl rfl rfl rfl
  · exact h4 oWriteFail emptyState "a.shp" "b.shp" "out.shp" [fA, fB] [fA, fB] [fA, fB]
      "Permission denied" rfl rfl rfl rfl
  · exact h5 oWriteFail emptyState "lst.tif" "ndvi.tif" "ndbi.tif" "out.tif"
      { h := 1, w := 1, bands := [gOne, gTwo] } { h := 1, w := 1, bands := [gOne, gTwo] }
      { h := 1, w := 1, bands := [gOne, gTwo] } gOne gOne gOne [[Fl.zero false]]
      "Permission denied" rfl rfl rfl rfl rfl rfl rfl rfl

/-- C5 (amended): for overlay inputs whose grids are not
numpy-broadcast-compatible, the array subtraction raises and the
operation reports a generic caught error (`UHI calculation failed:
operands could not be broadcast together` — there is no typed
`GeometryMismatchError`), leaving the state unchanged; likewise when
the broadcast result's shape differs from the LST profile the write
raises and is reported, with nothing registered.  (Broadcast-compatible
mismatches, e.g. 1×2 against 2×2, are *not* rejected — see the
counterexample.) -/
theorem C5_overlay_mismatch_reported_generically (o : Oracle) (s : AppState)
    (lf nf bf out : String) (ls ns bs : RasterSrc) (g1 g2 g3 : Grid)
    (ho1 : o.openRead lf = .ok ls) (ho2 : o.openRead nf = .ok ns)
    (ho3 : o.openRead bf = .ok bs) (hr1 : ls.read 1 = .ok g1)
    (hr2 : ns.read 1 = .ok g2) (hr3 : bs.read 1 = .ok g3) :
    (∀ e, overlayBody g1 g2 g3 = .error e →
      calculateOverlay o s lf nf bf out = (s, [.critical ("UHI calculation failed: " ++ e)]))
    ∧ (∀ u, overlayBody g1 g2 g3 = .ok u → shapeOk u ls.h ls.w = false →
      o.openWrite out = .ok () →
      calculateOverlay o s lf nf bf out
        = (s, [.critical "UHI calculation failed: Source shape does not match raster shape"])) := by
  constructor
  · intro e hbody
    unfold calculateOverlay
    rw [ho1]
    dsimp only
    rw [ho2]
    dsimp only
    rw [ho3]
    dsimp only
    rw [hr1]
    dsimp only
    rw [hr2]
    dsimp only
    rw [hr3]
    dsimp only
    rw [hbody]
  · intro u hbody hshape hw
    have hwr : writeRaster o out ls.h ls.w u = .error "Source shape does not match raster shape" := by
      unfold writeRaster
      rw [hw]
      dsimp only
      rw [hshape]
      rfl
    unfold calculateOverlay
    rw [ho1]
    dsimp only
    rw [ho2]
    dsimp only
    rw [ho3]
    dsimp only
    rw [hr1]
    dsimp only
    rw [hr2]
    dsimp only
    rw [hr3]
    dsimp only
    rw [hbody]
    dsimp only
    rw [hwr]
    rfl

/-- Witness for C5 (amended): a 2×2 LST against 2×3 companions is
broadcast-incompatible and reported; a 1×2 LST against 2×2 companions
broadcasts to 2×2, fails rasterio's shape check on write, and is
reported; both leave the state unchanged. -/
theorem C5_overlay_mismatch_reported_generically_witness :
    calculateOverlay oC5 emptyState "lst.tif" "wide.tif" "wide.tif" "o1.tif"
      = (emptyState, [.critical "UHI calculation failed: operands could not be broadcast together"])
    ∧ calculateOverlay oC5 emptyState "narrow.tif" "square.tif" "square.tif" "o2.tif"
      = (emptyState, [.critical "UHI calculation failed: Source shape does not match raster shape"]) := by
  constructor
  · exact (C5_overlay_mismatch_reported_generically oC5 emptyState
      "lst.tif" "wide.tif" "wide.tif" "o1.tif"
      { h := 2, w := 2, bands := [lstGrid22] } { h := 2, w := 3, bands := [zeros23] }
      { h := 2, w := 3, bands := [zeros23] } lstGrid22 zeros23 zeros23
      rfl rfl rfl rfl rfl rfl).1 "operands could not be broadcast together" rfl
  · exact (C5_overlay_mismatch_reported_generically oC5 emptyState
      "narrow.tif" "square.tif" "square.tif" "o2.tif"
      { h := 1, w := 2, bands := [narrowGrid12] } { h := 2, w := 2, bands := [lstGrid22] }
      { h := 2, w := 2, bands := [lstGrid22] } narrowGrid12 lstGrid22 lstGrid22
      rfl rfl rfl rfl rfl rfl).2
      [[Fl.num (-1), Fl.num (-1)], [Fl.num (-1), Fl.num (-1)]] rfl (by decide) rfl

/-- C5 (counterexample): the three overlay inputs do *not* share a
grid shape (the NDVI/NDBI grids are 1×2, the LST grid 2×2), yet the
operation is not rejected: numpy broadcasting produces a full 2×2
output, the write succeeds, the success dialog is shown and the output
is registered as a new layer — no `GeometryMismatchError` exists. -/
theorem C5_counterexample :
    gridShape narrowGrid12 ≠ gridShape lstGrid22
    ∧ calculateOverlay oC5 emptyState "lst.tif" "ndvi.tif" "ndbi.tif" "out.tif"
        = ({ layers := [("out.tif", LayerData.raster lstGrid22)],
             toc := [{ itemText := "", checkName := "out.tif", checked := true }] },
           [Dialog.info "UHI calculation completed: out.tif"]) := by
  constructor
  · decide
  · decide

theorem bufferFeatures_forall2 (o : Oracle) (d : Fl) :
    ∀ (l l2 : List Feature), bufferFeatures o d l = .ok l2 →
      List.Forall₂ (fun f f2 => f2.attrs = f.attrs ∧ o.bufferG d f.geom = .ok f2.geom) l l2 := by
  intro l
  induction l with
  | nil =>
    intro l2 h
    unfold bufferFeatures at h
    simp only [Except.ok.injEq] at h
    subst h
    exact List.Forall₂.nil
  | cons f rest ih =>
    intro l2 h
    unfold bufferFeatures at h
    cases hg : o.bufferG d f.geom with
    | error e => rw [hg] at h; dsimp only at h; exact absurd h (by simp)
    | ok g2 =>
      rw [hg] at h
      dsimp only at h
      cases hr : bufferFeatures o d rest with
      | error e => rw [hr] at h; dsimp only at h; exact absurd h (by simp)
      | ok lrest =>
        rw [hr] at h
        dsimp only at h
        simp only [Except.ok.injEq] at h
        subst h
        exact List.Forall₂.cons ⟨rfl, hg⟩ (ih lrest hr)

/-- C6 (amended): the only validation `calculateBuffer` performs on the
distance is Python's `float(...)` conversion: a string that does not
parse fails with the caught conversion error and registers nothing;
any parsed value — finite or not — is handed to the buffer engine,
each feature's geometry is replaced by the engine's buffer while its
attributes are kept, the full feature set is written, a write failure
is caught with nothing registered, and only after a successful write
is the output re-read and registered as a new vector layer. -/
theorem C6_buffer_validates_only_parse (o : Oracle) (s : AppState) (ip op dist : String) :
    (pyFloatParse dist = none →
      calculateBuffer o s ip op dist
        = (s, [.critical "Buffer operation failed: could not convert string to float"]))
    ∧ (∀ d gdf gdf2 e, pyFloatParse dist = some d → o.readVector ip = .ok gdf →
      bufferFeatures o d gdf = .ok gdf2 → o.writeVector op gdf2 = .error e →
      calculateBuffer o s ip op dist = (s, [.critical ("Buffer operation failed: " ++ e)]))
    ∧ (∀ d gdf gdf2 fs2, pyFloatParse dist = some d → o.readVector ip = .ok gdf →
      bufferFeatures o d gdf = .ok gdf2 → o.writeVector op gdf2 = .ok () →
      o.readVector op = .ok fs2 →
      calculateBuffer o s ip op dist
        = (updateTOC { s with layers := dictSet s.layers (basename op) (.vector fs2) },
          [.info "Buffer created successfully!"])
      ∧ List.Forall₂ (fun f f2 => f2.attrs = f.attrs ∧ o.bufferG d f.geom = .ok f2.geom) gdf gdf2) := by
  refine ⟨?_, ?_, ?_⟩
  · intro hnone
    unfold calculateBuffer
    rw [hnone]
  · intro d gdf gdf2 e hd hread hbuf hw
    unfold calculateBuffer
    rw [hd]
    dsimp only
    rw [hread]
    dsimp only
    rw [hbuf]
    dsimp only
    rw [hw]
  · intro d gdf gdf2 fs2 hd hread hbuf hw hback
    refine ⟨?_, bufferFeatures_forall2 o d gdf gdf2 hbuf⟩
    have hload : loadVector o s op = .ok
        (updateTOC { s with layers := dictSet s.layers (basename op) (.vector fs2) }) := by
      unfold loadVector
      rw [hback]
    unfold calculateBuffer
    rw [hd]
    dsimp only
    rw [hread]
    dsimp only
    rw [hbuf]
    dsimp only
    rw [hw]
    dsimp only
    rw [hload]

/-- Witness for C6 (amended): `"abc"` fails the conversion; a parsed
distance of `5` with a failing write leaves the state unchanged; with
a succeeding write the buffered features keep their attributes, get
the engine's geometries, and the output is registered. -/
theorem C6_buffer_validates_only_parse_witness :
    calculateBuffer oWriteFail emptyState "in.shp" "out.shp" "abc"
      = (emptyState, [.critical "Buffer operation failed: could not convert string to float"])
    ∧ calculateBuffer oWriteFail emptyState "in.shp" "out.shp" "5"
      = (emptyState, [.critical "Buffer operation failed: Permission denied"])
    ∧ calculateBuffer oC6 emptyState "in.shp" "out.shp" "5"
      = (updateTOC { layers := dictSet [] (basename "out.shp") (.vector [fB]), toc := [] },
        [.info "Buffer created successfully!"]) := by
  refine ⟨?_, ?_, ?_⟩
  · exact (C6_buffer_validates_only_parse oWriteFail emptyState "in.shp" "out.shp" "abc").1
      (by decide)
  · exact (C6_buffer_validates_only_parse oWriteFail emptyState "in.shp" "out.shp" "5").2.1
      (Fl.num 5) [fA, fB] [fA, fB] "Permission denied" (by decide) rfl rfl rfl
  · exact ((C6_buffer_validates_only_parse oC6 emptyState "in.shp" "out.shp" "5").2.2
      (Fl.num 5) [fA] [{ geom := { code := 101 }, attrs := { code := 11 } }] [fB]
      (by decide) rfl rfl rfl rfl).1

/-- C6 (counterexample): the distance string `"inf"` parses to a
*non-finite* Python float, yet the operation does not fail with any
parameter error: the infinite distance is passed straight to the
buffer engine, and with an engine and file system that accept the
request the operation succeeds and registers the output layer. -/
theorem C6_counterexample :
    pyFloatParse "inf" = some (Fl.inf false)
    ∧ (Fl.inf false).isFinite = false
    ∧ calculateBuffer oC6 emptyState "in.shp" "out.shp" "inf"
        = ({ layers := [("out.shp", LayerData.vector [fB])],
             toc := [{ itemText := "", checkName := "out.shp", checked := true }] },
          [Dialog.info "Buffer created successfully!"]) := by
  refine ⟨by decide, by decide, by decide⟩

theorem bcastDim_self (a : ℕ) : bcastDim a a = some a := by simp [bcastDim]

theorem bcastList_self {α : Type} (d : α) (l : List α) (n : ℕ) (h : l.length = n) :
    bcastList n d l = l := by simp [bcastList, h]

theorem zipWith_congr_mem {α β γ : Type} (f g : α → β → γ) :
    ∀ (l1 : List α) (l2 : List β), (∀ a ∈ l1, ∀ b ∈ l2, f a b = g a b) →
      List.zipWith f l1 l2 = List.zipWith g l1 l2 := by
  intro l1
  induction l1 with
  | nil => intro l2 _; rfl
  | cons a t ih =>
    intro l2 h
    cases l2 with
    | nil => rfl
    | cons b t2 =>
      simp only [List.zipWith_cons_cons]
      refine congrArg₂ _ (h a (by simp) b (by simp)) (ih t2 ?_)
      intro x hx y hy
      exact h x (List.mem_cons_of_mem _ hx) y (List.mem_cons_of_mem _ hy)

theorem gridZip_eq_zipWith (f : Fl → Fl → Fl) (g1 g2 : Grid) (c : ℕ)
    (hlen : g1.length = g2.length) (hc1 : ∀ r ∈ g1, r.length = c)
    (hc2 : ∀ r ∈ g2, r.length = c) :
    gridZip f g1 g2 = .ok (List.zipWith (List.zipWith f) g1 g2) := by
  cases g2 with
  | nil =>
    have : g1 = [] := List.length_eq_zero.mp (by simpa using hlen)
    subst this
    rfl
  | cons r2 t2 =>
    have hg2c : gridCols (r2 :: t2) = c := hc2 r2 (by simp)
    have hg1c : gridCols g1 = c := by
      cases g1 with
      | nil => simp at hlen
      | cons r1 t1 => exact hc1 r1 (by simp)
    unfold gridZip
    rw [hlen, bcastDim_self, hg1c, ← hg2c, bcastDim_self, hg2c]
    dsimp only
    rw [bcastList_self [] g1 (r2 :: t2).length hlen,
      bcastList_self [] (r2 :: t2) (r2 :: t2).length rfl]
    rw [zipWith_congr_mem _ (List.zipWith f) g1 (r2 :: t2) ?_]
    intro a ha b hb
    rw [bcastList_self Fl.nan a c (hc1 a ha), bcastList_self Fl.nan b c (hc2 b hb)]

theorem getD_zipWith {α : Type} (f : α → α → α) (d : α) :
    ∀ (l1 l2 : List α) (i : ℕ), i < l1.length → i < l2.length →
      (List.zipWith f l1 l2).getD i d = f (l1.getD i d) (l2.getD i d) := by
  intro l1
  induction l1 with
  | nil => intro l2 i h1 _; simp at h1
  | cons a t ih =>
    intro l2 i h1 h2
    cases l2 with
    | nil => simp at h2
    | cons b t2 =>
      cases i with
      | zero => rfl
      | succ n =>
        simp only [List.zipWith_cons_cons, List.getD_cons_succ]
        exact ih t2 n (by simpa using h1) (by simpa using h2)

theorem zipWith_rows_length (g : Fl → Fl → Fl) (cc : ℕ) :
    ∀ (l1 l2 : Grid), (∀ r ∈ l1, r.length = cc) → (∀ r ∈ l2, r.length = cc) →
      ∀ r ∈ List.zipWith (List.zipWith g) l1 l2, r.length = cc := by
  intro l1
  induction l1 with
  | nil => intro l2 _ _ r hr; simp at hr
  | cons a t ih =>
    intro l2 h1 h2 r hr
    cases l2 with
    | nil => simp at hr
    | cons b t2 =>
      simp only [List.zipWith_cons_cons, List.mem_cons] at hr
      rcases hr with hr | hr
      · rw [hr, List.length_zipWith, h1 a (by simp), h2 b (by simp), Nat.min_self]
      · exact ih t2 (fun x hx => h1 x (List.mem_cons_of_mem _ hx))
          (fun x hx => h2 x (List.mem_cons_of_mem _ hx)) r hr

theorem normDiff_eq_ok (a b : Grid) (c : ℕ) (hlen : a.length = b.length)
    (hc1 : ∀ r ∈ a, r.length = c) (hc2 : ∀ r ∈ b, r.length = c) :
    normDiff a (some b) = .ok (ndviPure a b) := by
  have hsub := gridZip_eq_zipWith sub32 a b c hlen hc1 hc2
  have hadd := gridZip_eq_zipWith add32 a b c hlen hc1 hc2
  have hzlen : (List.zipWith (List.zipWith sub32) a b).length
      = (List.zipWith (List.zipWith add32) a b).length := by
    simp [List.length_zipWith]
  have hdiv := gridZip_eq_zipWith div32
    (List.zipWith (List.zipWith sub32) a b) (List.zipWith (List.zipWith add32) a b) c
    hzlen (zipWith_rows_length sub32 c a b hc1 hc2) (zipWith_rows_length add32 c a b hc1 hc2)
  unfold normDiff
  dsimp only
  rw [hsub]
  dsimp only
  rw [hadd]
  dsimp only
  rw [hdiv]
  rfl

theorem cell_ndviPure (a b : Grid) (c : ℕ) (hlen : a.length = b.length)
    (hc1 : ∀ r ∈ a, r.length = c) (hc2 : ∀ r ∈ b, r.length = c)
    (i j : ℕ) (hi : i < a.length) (hj : j < c) :
    cell (ndviPure a b) i j
      = div32 (sub32 (cell a i j) (cell b i j)) (add32 (cell a i j) (cell b i j)) := by
  have hib : i < b.length := hlen ▸ hi
  have hsgl : i < (List.zipWith (List.zipWith sub32) a b).length := by
    simp [List.length_zipWith, hlen ▸ hi, hi]
  have hagl : i < (List.zipWith (List.zipWith add32) a b).length := by
    simp [List.length_zipWith, hlen ▸ hi, hi]
  have hrowa : (a.getD i []).length = c := hc1 _ (getD_mem [] a i hi)
  have hrowb : (b.getD i []).length = c := hc2 _ (getD_mem [] b i hib)
  unfold ndviPure cell
  rw [getD_zipWith (List.zipWith div32) [] _ _ i hsgl hagl,
    getD_zipWith (List.zipWith sub32) [] a b i hi hib,
    getD_zipWith (List.zipWith add32) [] a b i hi hib,
    getD_zipWith div32 Fl.nan _ _ j
      (by rw [List.length_zipWith, hrowa, hrowb, Nat.min_self]; exact hj)
      (by rw [List.length_zipWith, hrowa, hrowb, Nat.min_self]; exact hj),
    getD_zipWith sub32 Fl.nan _ _ j (hrowa ▸ hj) (hrowb ▸ hj),
    getD_zipWith add32 Fl.nan _ _ j (hrowa ▸ hj) (hrowb ▸ hj)]

theorem div32_by_zero_isInfOrNan (x : Fl) (s : Bool) :
    (div32 x (Fl.zero s)).isInfOrNan = true := by
  cases x <;> rfl

theorem isZero_exists (x : Fl) (h : x.isZero = true) : ∃ s, x = Fl.zero s := by
  cases x <;> simp [Fl.isZero] at h ⊢

/-- C7: for two same-shape input bands, the NDVI computation completes
without raising — the operation finishes with the success dialog and
registers the output — and at every cell where the float32 band sum
`a + b` is (±)zero the computed cell is ±∞ or NaN, exactly IEEE float
division semantics (`x/±0 = ±∞` for `x ≠ 0`, `±0/±0 = NaN`). -/
theorem C7_ndvi_zero_sum_cell_is_inf_or_nan (o : Oracle) (s : AppState)
    (rf b1 b2 out : String) (i1 i2 : ℤ) (src : RasterSrc) (d1 d2 : Grid) (c : ℕ)
    (gout : RasterSrc) (gb : Grid)
    (hparse : parseBandPair b1 (some b2) = .ok (i1, some i2)) (hi2 : ¬ i2 = 0)
    (hopen : o.openRead rf = .ok src) (h1 : src.read i1 = .ok d1) (h2 : src.read i2 = .ok d2)
    (hlen : d1.length = d2.length) (hc1 : ∀ r ∈ d1, r.length = c)
    (hc2 : ∀ r ∈ d2, r.length = c)
    (hshape : shapeOk (ndviPure d1 d2) src.h src.w = true)
    (hw : o.openWrite out = .ok ()) (hback : o.openRead out = .ok gout)
    (hbread : gout.read 1 = .ok gb) :
    calculateNDVI o s rf b1 b2 out
      = (updateTOC { s with layers := dictSet s.layers (basename out) (.raster gb) },
        [.info ("Calculation completed: " ++ out)])
    ∧ ∀ i j, i < d1.length → j < c →
        (add32 (cell d1 i j) (cell d2 i j)).isZero = true →
        (cell (ndviPure d1 d2) i j).isInfOrNan = true := by
  constructor
  · have hd2 : readData2 src (some i2) = .ok (some d2) := by
      unfold readData2
      dsimp only
      rw [if_neg hi2, h2]
    have hnd := normDiff_eq_ok d1 d2 c hlen hc1 hc2
    have hwr : writeRaster o out src.h src.w (ndviPure d1 d2) = .ok () := by
      unfold writeRaster
      rw [hw]
      dsimp only
      rw [if_pos hshape]
    have hload : loadRaster o s out
        = .ok (updateTOC { s with layers := dictSet s.layers (basename out) (.raster gb) }) := by
      unfold loadRaster
      rw [hback]
      dsimp only
      rw [hbread]
    unfold calculateNDVI calculateRasterIndex
    rw [hparse]
    dsimp only
    rw [hopen]
    dsimp only
    rw [h1]
    dsimp only
    rw [hd2]
    dsimp only
    rw [hnd]
    dsimp only
    rw [hwr]
    dsimp only
    rw [hload]
  · intro i j hi hj hz
    rw [cell_ndviPure d1 d2 c hlen hc1 hc2 i j hi hj]
    obtain ⟨sg, hsg⟩ := isZero_exists _ hz
    rw [hsg]
    exact div32_by_zero_isInfOrNan _ sg

/-- Witness for C7: bands `[[1]]` and `[[-1]]` sum to float32 `+0`;
the NDVI operation completes with the success dialog, registers the
output, and the computed cell is `+∞`. -/
theorem C7_ndvi_zero_sum_cell_is_inf_or_nan_witness :
    calculateNDVI oC7 emptyState "scene.tif" "1" "2" "ndvi_out.tif"
      = ({ layers := [("ndvi_out.tif", LayerData.raster [[Fl.inf false]])],
           toc := [{ itemText := "", checkName := "ndvi_out.tif", checked := true }] },
        [Dialog.info "Calculation completed: ndvi_out.tif"])
    ∧ (add32 (cell gOne 0 0) (cell [[Fl.num (-1)]] 0 0)).isZero = true
    ∧ (cell (ndviPure gOne [[Fl.num (-1)]]) 0 0).isInfOrNan = true := by
  have h := C7_ndvi_zero_sum_cell_is_inf_or_nan oC7 emptyState
    "scene.tif" "1" "2" "ndvi_out.tif" 1 2
    { h := 1, w := 1, bands := [gOne, [[Fl.num (-1)]]] } gOne [[Fl.num (-1)]] 1
    { h := 1, w := 1, bands := [[[Fl.inf false]]] } [[Fl.inf false]]
    rfl (by decide) rfl rfl rfl (by decide)
    (by intro r hr; simp only [gOne, List.mem_singleton] at hr; rw [hr]; rfl)
    (by intro r hr; rw [List.mem_singleton] at hr; rw [hr]; rfl)
    (by decide) rfl rfl rfl
  refine ⟨h.1.trans (by decide), by decide, h.2 0 0 (by decide) (by decide) (by decide)⟩

/-- C8 (amended): the algebraic simplification of the fixed LST
formula holds in exact arithmetic: for every band value `v`,
`(v·0.00341802 + 149) − 273.15 = v·0.00341802 − 124.15` as exact
reals — but not in the engine's 32-bit floats, where the two
evaluations can differ by one unit in the last place (see the
counterexample at `v = 0`). -/
theorem C8_lst_algebraic_simplification_exact (v : ℚ) :
    lstExactFormula v = v * (341802 / 100000000) - 12415 / 100 := by
  unfold lstExactFormula
  ring

/-- C8 (counterexample): at band value `v = 0` the code's float32 LST
pipeline yields `fl32(fl32(0·c + 149) − fl32(273.15)) = −4068147/2^15
= −124.14999389…`, while the 32-bit evaluation of the simplified
formula `v·0.00341802 − 124.15` yields `−16272589/2^17 =
−124.15000153…`: one ulp apart, so the operation does not return the
simplification "exactly"; nor does it equal the exact real value
`−124.15`. -/
theorem C8_counterexample :
    lstCell (Fl.zero false) = Fl.num (-(4068147 / 32768))
    ∧ lstSimpleCell (Fl.zero false) = Fl.num (-(16272589 / 131072))
    ∧ lstCell (Fl.zero false) ≠ lstSimpleCell (Fl.zero false)
    ∧ Fl.toQ (lstCell (Fl.zero false)) ≠ -(12415 / 100) := by
  refine ⟨by decide, by decide, by decide, by decide⟩
